import Mathlib

/-!
Shallow embedding of the NutriSolve request-time recommendation engine
(`backend/ml/predict.py`) and proofs about its behaviour.

Modelling conventions:
* A pandas DataFrame is a `DataFrame`: the list of column names that exist on
  the frame, plus one total function per row from column names to cell values.
  A cell is only ever read through a column the code has checked (or just
  materialized), mirroring pandas' own KeyError discipline, so values at
  columns outside `cols` are never observed.
* Machine floats are modelled as rationals (`ℚ`); numpy vectors are `List ℚ`.
* `np.argsort` is modelled as a stable ascending sort of the index list
  (numpy's introsort degenerates to the stable insertion sort on small
  arrays); the code then reverses it and takes the first `top_k`.
* The opaque scoring artifacts (fitted preprocessor, feature selector and
  classifier) are parameters: arbitrary functions bundled in `ArtifactBundle`.
* `main`'s observable behaviour (stdin read, artifact loads, stdout/stderr
  writes, exit code) is modelled as a trace of `Event`s plus an exit code;
  `json.loads` is modelled by an `Option UserInput` (`none` = JSONDecodeError).
-/

namespace NutriSolve

/-- Value stored in one cell of the catalog: a numeric or a string. -/
inductive CellValue where
  | num (q : ℚ)
  | str (s : String)
deriving DecidableEq

/-- Row of a catalog: a total assignment of cell values to column names.
Only columns listed in the frame's `cols` are ever read. -/
def Row : Type := String → CellValue

/-- Pandas DataFrame: the columns that exist, and the rows. -/
structure DataFrame where
  cols : List String
  rows : List Row

/-- Numeric content of a cell value (`0` for a string cell, which the code
never actually reads through a numeric comparison). -/
def cellNum : CellValue → ℚ
  | .num q => q
  | .str _ => 0

/-- Numeric content of a cell of a row. -/
def numAt (r : Row) (c : String) : ℚ :=
  cellNum (r c)

/-- String content of a cell with a fallback, mirroring `food.get(col, d)`. -/
def strAt (r : Row) (c : String) (d : String) : String :=
  match r c with
  | .str s => s
  | .num _ => d

/-- User profile extracted from the request payload, all fields optional as in
`user_input.get('userProfile', {})`. -/
structure UserProfile where
  age : Option ℚ := none
  gender : Option String := none
  primaryGoal : Option String := none
  dietaryRestrictions : List String := []
  weeklyBudget : Option ℚ := none

/-- One full request document. -/
structure UserInput where
  userProfile : UserProfile := {}
  query : Option String := none
  topK : Option ℕ := none

/-- Test whether a dietary-flag cell equals `1`, as in
`filtered_df['is_vegan'] == 1`. -/
def flagIsOne (r : Row) (c : String) : Bool :=
  decide (r c = CellValue.num 1)

/-- Test whether a cost cell is a numeric `≤ m`, as in
`filtered_df['cost_per_serving'] <= max_cost_per_serving`. -/
def costAtMost (r : Row) (c : String) (m : ℚ) : Bool :=
  match r c with
  | .num q => decide (q ≤ m)
  | .str _ => false

/-- One restriction stage of the filter: if the restriction was requested
(`cond`) and the flag column `c` exists, keep only rows whose flag is `1`;
otherwise pass the frame through unchanged. -/
def restrictStage (df : DataFrame) (cond : Prop) [Decidable cond] (c : String) : DataFrame :=
  if cond ∧ c ∈ df.cols then
    { df with rows := df.rows.filter (fun r => flagIsOne r c) }
  else df

/-- Budget stage of the filter: if the cost column exists, keep only rows
whose cost per serving is at most `m`. -/
def budgetStage (df : DataFrame) (m : ℚ) : DataFrame :=
  if "cost_per_serving" ∈ df.cols then
    { df with rows := df.rows.filter (fun r => costAtMost r "cost_per_serving" m) }
  else df

/-- Embedding of `filter_by_user_constraints` (predict.py lines 65-100):
three restriction filters, each guarded by exact membership of the two
recognized spellings in the restriction list and by presence of the flag
column, then the budget filter guarded by presence of the cost column.
The budget defaults to 100 and the cap is budget / 21. -/
def filter_by_user_constraints (df : DataFrame) (p : UserProfile) : DataFrame :=
  budgetStage
    (restrictStage
      (restrictStage
        (restrictStage df
          ("Vegan" ∈ p.dietaryRestrictions ∨ "vegan" ∈ p.dietaryRestrictions)
          "is_vegan")
        ("Gluten Free" ∈ p.dietaryRestrictions ∨ "gluten-free" ∈ p.dietaryRestrictions)
        "is_glutenfree")
      ("Nut Allergy" ∈ p.dietaryRestrictions ∨ "nut-free" ∈ p.dietaryRestrictions)
      "is_nutfree")
    (p.weeklyBudget.getD 100 / 21)

/-- Unicode-pointwise lower-casing of a string (the embedding's executable
counterpart of Python's `str.lower` for the ASCII restriction labels). -/
def lowerStr (s : String) : String :=
  ⟨s.data.map Char.toLower⟩

/-- Numeric feature columns required by the model, in the order the code
declares them (predict.py lines 174-179). -/
def numerical_features : List String :=
  ["calories", "protein_g", "fat_g", "carbs_g", "fiber_g", "sugars_g",
   "sodium_mg", "vitamin_a_iu", "vitamin_c_mg", "calcium_mg", "iron_mg",
   "potassium_mg", "magnesium_mg", "zinc_mg", "phosphorus_mg",
   "cost_per_serving", "nutrient_density", "sugar_to_carb_ratio"]

/-- Categorical feature columns. -/
def categorical_features : List String :=
  ["food_category"]

/-- Binary feature columns. -/
def binary_features : List String :=
  ["is_glutenfree", "is_nutfree", "is_vegan"]

/-- Overwrite one cell of a row. -/
def updateRow (r : Row) (c : String) (v : CellValue) : Row :=
  fun x => if x = c then v else r x

/-- Append a column whose per-row value is computed from the current row,
as pandas column assignment `df[c] = series` does. -/
def addColumn (df : DataFrame) (c : String) (f : Row → CellValue) : DataFrame :=
  { cols := df.cols ++ [c]
    rows := df.rows.map (fun r => updateRow r c (f r)) }

/-- pandas `df.get(col, default)` read during materialization: the column's
cell if the column exists, the scalar default otherwise. -/
def colGetNum (df : DataFrame) (r : Row) (c : String) (d : ℚ) : ℚ :=
  if c ∈ df.cols then numAt r c else d

/-- Materialization skeleton `if col not in df.columns: df[col] = ...`:
skip an existing column, otherwise append it with the given default series. -/
def ensureCol (df : DataFrame) (c : String) (f : DataFrame → Row → CellValue) : DataFrame :=
  if c ∈ df.cols then df else addColumn df c (f df)

/-- Default series for a missing numeric column (predict.py lines 186-191):
the two derived columns are computed from the current frame through
`df.get(col, scalar)` reads, every other numeric column is zero-filled. -/
def numDefault (c : String) (df : DataFrame) (r : Row) : CellValue :=
  if c = "nutrient_density" then
    CellValue.num
      ((colGetNum df r "protein_g" 0 + colGetNum df r "fiber_g" 0) /
        (colGetNum df r "calories" 1 + 1))
  else if c = "sugar_to_carb_ratio" then
    CellValue.num (colGetNum df r "sugars_g" 0 / (colGetNum df r "carbs_g" 1 + 1))
  else CellValue.num 0

/-- One step of the numeric materialization loop (predict.py lines 184-191). -/
def numStep (df : DataFrame) (c : String) : DataFrame :=
  ensureCol df c (numDefault c)

/-- One step of the categorical materialization loop (lines 193-195). -/
def catStep (df : DataFrame) (c : String) : DataFrame :=
  ensureCol df c (fun _ _ => CellValue.str "unknown")

/-- One step of the binary materialization loop (lines 197-199). -/
def binStep (df : DataFrame) (c : String) : DataFrame :=
  ensureCol df c (fun _ _ => CellValue.num 0)

/-- Feature Materializer (predict.py lines 183-199): the three fill loops run
in order over the declared feature lists. -/
def materializeFeatures (df : DataFrame) : DataFrame :=
  binary_features.foldl binStep
    (categorical_features.foldl catStep
      (numerical_features.foldl numStep df))

/-- Placeholder row used as the out-of-range default of list reads; every
read the theorems make is guarded by an index bound. -/
def junkRow : Row :=
  fun _ => CellValue.num 0

/-- Cell of the row at index `i`. -/
def cellAt (df : DataFrame) (i : ℕ) (c : String) : CellValue :=
  (df.rows.getD i junkRow) c

/-- First sixteen numeric feature columns: the inputs of the two derived
columns, which close the list. -/
def numPre : List String :=
  ["calories", "protein_g", "fat_g", "carbs_g", "fiber_g", "sugars_g",
   "sodium_mg", "vitamin_a_iu", "vitamin_c_mg", "calcium_mg", "iron_mg",
   "potassium_mg", "magnesium_mg", "zinc_mg", "phosphorus_mg",
   "cost_per_serving"]

/-- Two-sided clamp into the unit interval, `np.clip(x, 0, 1)`. -/
def clip01 (x : ℚ) : ℚ :=
  min (max x 0) 1

/-- Embedding of `adjust_for_goals` (predict.py lines 102-135): one
mask-and-multiply pass chosen by the goal string, then `np.clip(·, 0, 1)`.
Multipliers 1.2 and 1.3 are the exact rationals 6/5 and 13/10. -/
def adjust_for_goals (probs : List ℚ) (rows : List Row) (p : UserProfile) : List ℚ :=
  (if p.primaryGoal.getD "" = "Weight Loss" then
      List.zipWith (fun pr r =>
        if numAt r "calories" < 300 ∧ numAt r "protein_g" > 15 then pr * (6 / 5) else pr)
        probs rows
    else if p.primaryGoal.getD "" = "Muscle Gain" then
      List.zipWith (fun pr r =>
        if numAt r "protein_g" > 20 then pr * (13 / 10) else pr)
        probs rows
    else if p.primaryGoal.getD "" = "Heart Health" then
      List.zipWith (fun pr r =>
        if numAt r "sodium_mg" < 500 ∧ numAt r "fiber_g" > 5 then pr * (6 / 5) else pr)
        probs rows
    else probs).map clip01

/-- Goal multiplier table as the spec's rule table states it: 1.2 for a
Weight-Loss item with calories < 300 and protein > 15, 1.3 for a Muscle-Gain
item with protein > 20, 1.2 for a Heart-Health item with sodium < 500 and
fiber > 5, and 1.0 otherwise. -/
def goalMultiplier (p : UserProfile) (r : Row) : ℚ :=
  let goal := p.primaryGoal.getD ""
  if goal = "Weight Loss" ∧ numAt r "calories" < 300 ∧ numAt r "protein_g" > 15 then 6 / 5
  else if goal = "Muscle Gain" ∧ numAt r "protein_g" > 20 then 13 / 10
  else if goal = "Heart Health" ∧ numAt r "sodium_mg" < 500 ∧ numAt r "fiber_g" > 5 then 6 / 5
  else 1

/-- Case-insensitive recognizer for the vegan restriction, matching the
claim's wording (human label "Vegan" and slug "vegan"). -/
def matchesVeganCI (s : String) : Prop :=
  lowerStr s = "vegan"

/-- Case-insensitive recognizer for the gluten-free restriction. -/
def matchesGlutenCI (s : String) : Prop :=
  lowerStr s = "gluten free" ∨ lowerStr s = "gluten-free"

/-- Case-insensitive recognizer for the nut-free restriction. -/
def matchesNutCI (s : String) : Prop :=
  lowerStr s = "nut allergy" ∨ lowerStr s = "nut-free"

/-- Opaque scoring artifacts loaded from disk: the fitted preprocessor
transform, the fitted feature selector, and the classifier's positive-class
probability column, as arbitrary functions. -/
structure ArtifactBundle where
  transform : List Row → List (List ℚ)
  select : List (List ℚ) → List (List ℚ)
  predictProba : List (List ℚ) → List ℚ

/-- Global minimum of a matrix, `X.min()` (0 for the empty matrix, a case the
code never reaches because an empty catalog returns before inference). -/
def matMin (m : List (List ℚ)) : ℚ :=
  match m.flatten with
  | [] => 0
  | x :: xs => xs.foldl min x

/-- The epsilon the non-negative shift adds, `1e-9`. -/
def epsShift : ℚ :=
  1 / 1000000000

/-- Embedding of `X_nonneg = X_transformed - X_transformed.min() + 1e-9`
(predict.py line 208): subtract the current batch's global minimum and add
epsilon, uniformly over every entry. -/
def shiftNonneg (m : List (List ℚ)) : List (List ℚ) :=
  m.map (fun row => row.map (fun x => x - matMin m + epsShift))

/-- Raw fit probabilities for a materialized catalog (predict.py lines
204-214): transform, shift non-negative, select, classify. -/
def scoreProbs (b : ArtifactBundle) (mdf : DataFrame) : List ℚ :=
  b.predictProba (b.select (shiftNonneg (b.transform mdf.rows)))

/-- Nutrition summary attached to one recommendation. -/
structure Nutrition where
  calories : ℚ
  protein : ℚ
  carbs : ℚ
  fat : ℚ
  fiber : ℚ
  sugars : ℚ
deriving DecidableEq

/-- One recommendation record (predict.py lines 250-266). -/
structure Recommendation where
  name : String
  category : String
  fit_score : ℚ
  confidence : String
  nutrition : Nutrition
  cost : ℚ
  reasons : List String
  dietary_info : List String
deriving DecidableEq

/-- Reason strings (predict.py lines 229-239), tested in the code's fixed
order; the interpolated numbers of the Python f-strings are elided. -/
def buildReasons (r : Row) : List String :=
  (if numAt r "protein_g" > 15 then ["High protein"] else []) ++
  (if numAt r "fiber_g" > 5 then ["High fiber"] else []) ++
  (if numAt r "calories" < 200 then ["Low calorie"] else []) ++
  (if numAt r "sugars_g" < 5 then ["Low sugar"] else []) ++
  (if numAt r "cost_per_serving" < 2 then ["Budget-friendly"] else [])

/-- Dietary tags (predict.py lines 242-248). -/
def buildDietary (r : Row) : List String :=
  (if r "is_vegan" = CellValue.num 1 then ["Vegan"] else []) ++
  (if r "is_glutenfree" = CellValue.num 1 then ["Gluten-free"] else []) ++
  (if r "is_nutfree" = CellValue.num 1 then ["Nut-free"] else [])

/-- Confidence tier from the fit score (predict.py line 254). -/
def confidenceTier (p : ℚ) : String :=
  if p > 8 / 10 then "high" else if p > 6 / 10 then "medium" else "moderate"

/-- One recommendation from a catalog row and its adjusted probability. -/
def buildRec (r : Row) (prob : ℚ) : Recommendation :=
  { name := strAt r "description" ""
    category := strAt r "food_category" "Unknown"
    fit_score := prob
    confidence := confidenceTier prob
    nutrition :=
      { calories := numAt r "calories", protein := numAt r "protein_g"
        carbs := numAt r "carbs_g", fat := numAt r "fat_g"
        fiber := numAt r "fiber_g", sugars := numAt r "sugars_g" }
    cost := numAt r "cost_per_serving"
    reasons := buildReasons r
    dietary_info := buildDietary r }

/-- Successful response payload (predict.py lines 269-275). -/
structure PredictSuccess where
  recommendations : List Recommendation
  query : String
  total_eligible : ℕ
  model_version : String
  user_goal : String
deriving DecidableEq

/-- Response of the prediction pipeline: either the empty-catalog guidance
response (recommendations implicitly empty) or a success payload. -/
inductive PredictResult where
  | noMatch (message : String)
  | success (s : PredictSuccess)
deriving DecidableEq

/-- Recommendation list of either response shape. -/
def PredictResult.recommendationList : PredictResult → List Recommendation
  | .noMatch _ => []
  | .success s => s.recommendations

/-- Guidance message returned when filtering leaves no eligible item. -/
def noMatchMsg : String :=
  "No foods match your dietary restrictions and budget. Try relaxing some constraints."

/-- The C1 claim exactly as stated: every returned item satisfies the flag
constraint for every restriction string that matches a recognized restriction
case-insensitively (when the flag column exists), and the budget bound
whenever a cost column exists. -/
def claimC1Statement : Prop :=
  ∀ (df : DataFrame) (p : UserProfile),
    ∀ r ∈ (filter_by_user_constraints df p).rows,
      (∀ s ∈ p.dietaryRestrictions,
        (matchesVeganCI s → "is_vegan" ∈ df.cols → r "is_vegan" = CellValue.num 1) ∧
        (matchesGlutenCI s → "is_glutenfree" ∈ df.cols →
          r "is_glutenfree" = CellValue.num 1) ∧
        (matchesNutCI s → "is_nutfree" ∈ df.cols → r "is_nutfree" = CellValue.num 1)) ∧
      ("cost_per_serving" ∈ df.cols →
        numAt r "cost_per_serving" ≤ (p.weeklyBudget.getD 100) / 21)

/-- Catalog with a single non-vegan item and only a vegan-flag column. -/
def dfNonVegan : DataFrame :=
  { cols := ["is_vegan"], rows := [fun _ => CellValue.num 0] }

/-- Profile whose restriction list holds the upper-case spelling "VEGAN". -/
def profileUpperVegan : UserProfile :=
  { dietaryRestrictions := ["VEGAN"] }

/-- Catalog with vegan flag and cost columns: one vegan cheap item, one vegan
expensive item, one non-vegan cheap item. -/
def dfWitness : DataFrame :=
  { cols := ["is_vegan", "cost_per_serving", "description"]
    rows :=
      [fun c => if c = "is_vegan" then CellValue.num 1 else
        if c = "cost_per_serving" then CellValue.num 2 else CellValue.str "tofu",
       fun c => if c = "is_vegan" then CellValue.num 1 else
        if c = "cost_per_serving" then CellValue.num 50 else CellValue.str "truffle",
       fun c => if c = "is_vegan" then CellValue.num 0 else
        if c = "cost_per_serving" then CellValue.num 1 else CellValue.str "beef"] }

/-- Profile requesting vegan food on a weekly budget of 75. -/
def profileWitness : UserProfile :=
  { primaryGoal := some "Weight Loss"
    dietaryRestrictions := ["Vegan"]
    weeklyBudget := some 75 }

/-- Item with 22 g of protein (all other numeric cells 0). -/
def rowMG : Row :=
  fun c => if c = "protein_g" then CellValue.num 22 else CellValue.num 0

/-- Profile whose primary goal is Muscle Gain. -/
def profileMG : UserProfile :=
  { primaryGoal := some "Muscle Gain" }

/-- Catalog with a single item that has only calories and protein columns. -/
def dfC7 : DataFrame :=
  { cols := ["calories", "protein_g"]
    rows := [fun c => if c = "calories" then CellValue.num 100 else
      if c = "protein_g" then CellValue.num 5 else CellValue.num 0] }

/-- Ascending stable comparison modelling `np.argsort`: order indices by
their probability, ties by index (stability of the underlying sort). -/
def argsortRel (probs : List ℚ) (i j : ℕ) : Prop :=
  probs.getD i 0 < probs.getD j 0 ∨ (probs.getD i 0 = probs.getD j 0 ∧ i ≤ j)

instance (probs : List ℚ) : DecidableRel (argsortRel probs) := fun i j => by
  unfold argsortRel
  infer_instance

instance (probs : List ℚ) : IsTotal ℕ (argsortRel probs) where
  total i j := by
    unfold argsortRel
    rcases lt_trichotomy (probs.getD i 0) (probs.getD j 0) with h | h | h
    · exact Or.inl (Or.inl h)
    · rcases Nat.le_total i j with hij | hij
      · exact Or.inl (Or.inr ⟨h, hij⟩)
      · exact Or.inr (Or.inr ⟨h.symm, hij⟩)
    · exact Or.inr (Or.inl h)

instance (probs : List ℚ) : IsTrans ℕ (argsortRel probs) where
  trans i j k hij hjk := by
    unfold argsortRel at *
    rcases hij with h1 | ⟨h1, h1'⟩
    · rcases hjk with h2 | ⟨h2, _⟩
      · exact Or.inl (h1.trans h2)
      · exact Or.inl (h2 ▸ h1)
    · rcases hjk with h2 | ⟨h2, h2'⟩
      · exact Or.inl (h1 ▸ h2)
      · exact Or.inr ⟨h1.trans h2, h1'.trans h2'⟩

/-- Model of `np.argsort(probs)[::-1]` (predict.py line 220): stable
ascending argsort of the index list, then reversed. -/
def argsortDesc (probs : List ℚ) : List ℕ :=
  (List.insertionSort (argsortRel probs) (List.range probs.length)).reverse

/-- Adjusted probabilities of the eligible catalog: raw scores from the
artifacts, then the goal adjustment. -/
def adjustedProbs (b : ArtifactBundle) (eligible : DataFrame) (p : UserProfile) : List ℚ :=
  adjust_for_goals (scoreProbs b (materializeFeatures eligible))
    (materializeFeatures eligible).rows p

/-- Success payload built from the eligible catalog (predict.py lines
174-275 after the empty check): materialize, score, adjust, rank with
`np.argsort(probs)[::-1][:top_k]`, build recommendations and metadata. -/
def buildSuccess (b : ArtifactBundle) (eligible : DataFrame) (ui : UserInput)
    (k : ℕ) : PredictSuccess :=
  { recommendations :=
      ((argsortDesc (adjustedProbs b eligible ui.userProfile)).take k).map
        (fun i => buildRec ((materializeFeatures eligible).rows.getD i junkRow)
          ((adjustedProbs b eligible ui.userProfile).getD i 0))
    query := ui.query.getD ""
    total_eligible := (materializeFeatures eligible).rows.length
    model_version := "1.0"
    user_goal := ui.userProfile.primaryGoal.getD "General Health" }

/-- Embedding of `predict_top_meals` (predict.py lines 137-275) after the
artifacts and catalog have been loaded: filter, return the guidance response
when nothing is eligible, otherwise score and rank. -/
def predict_top_meals (b : ArtifactBundle) (food_db : DataFrame) (ui : UserInput)
    (k : ℕ) : PredictResult :=
  if (filter_by_user_constraints food_db ui.userProfile).rows.length = 0 then
    PredictResult.noMatch noMatchMsg
  else
    PredictResult.success
      (buildSuccess b (filter_by_user_constraints food_db ui.userProfile) ui k)

/-- Observable events of one process run, in order of occurrence. -/
inductive Event where
  | readStdin
  | loadModels (ok : Bool)
  | loadCatalog (ok : Bool)
  | score
  | writeStdout (r : PredictResult)
  | writeStderr (msg : String)
deriving DecidableEq

/-- Notice printed before substituting the built-in request (line 316). -/
def noInputMsg : String :=
  "No input provided. Using test data..."

/-- Stderr message when the model artifacts are absent (line 44). -/
def modelsMissingMsg : String :=
  "Model files not found. Run train.py first."

/-- Stderr message when neither catalog file is present (line 62). -/
def catalogMissingMsg : String :=
  "Food database not found"

/-- The built-in default request used in interactive mode (lines 317-327). -/
def defaultUserInput : UserInput :=
  { userProfile :=
      { age := some 30
        gender := some "Female"
        primaryGoal := some "Weight Loss"
        dietaryRestrictions := ["Vegan"]
        weeklyBudget := some 75 }
    query := some "healthy breakfast"
    topK := some 5 }

/-- Process environment of one run: terminal state, what `json.loads` would
yield on the request document (`none` models a JSONDecodeError, with the
exception detail text alongside), and availability plus content of the
on-disk artifacts and catalog. -/
structure Env where
  isatty : Bool
  stdinParse : Option UserInput
  parseErrDetail : String
  artifactsOk : Bool
  catalogOk : Bool
  catalog : DataFrame
  bundle : ArtifactBundle

/-- Events and exit code after a request has been obtained (main lines
334-341 around `predict_top_meals` lines 156-171): load artifacts (fatal on
failure), load the catalog (fatal on failure), filter, answer the guidance
response without scoring when nothing is eligible, otherwise score and print
the ranked response; success exits 0. -/
def runPipeline (env : Env) (ui : UserInput) (pre : List Event) : List Event × ℕ :=
  if env.artifactsOk = false then
    (pre ++ [Event.loadModels false, Event.writeStderr modelsMissingMsg], 1)
  else if env.catalogOk = false then
    (pre ++ [Event.loadModels true, Event.loadCatalog false,
      Event.writeStderr catalogMissingMsg], 1)
  else if (filter_by_user_constraints env.catalog ui.userProfile).rows.length = 0 then
    (pre ++ [Event.loadModels true, Event.loadCatalog true,
      Event.writeStdout (PredictResult.noMatch noMatchMsg)], 0)
  else
    (pre ++ [Event.loadModels true, Event.loadCatalog true, Event.score,
      Event.writeStdout
        (predict_top_meals env.bundle env.catalog ui (ui.topK.getD 5))], 0)

/-- Embedding of `main` (predict.py lines 277-350): in interactive mode print
a notice and substitute the built-in request; otherwise read standard input
and parse it, reporting `Invalid JSON input` on stderr with exit 1 and no
stdout output when parsing fails; then run the pipeline. -/
def mainRun (env : Env) : List Event × ℕ :=
  if env.isatty then
    runPipeline env defaultUserInput [Event.writeStderr noInputMsg]
  else
    match env.stdinParse with
    | none =>
        ([Event.readStdin,
          Event.writeStderr ("Invalid JSON input: " ++ env.parseErrDetail)], 1)
    | some ui => runPipeline env ui [Event.readStdin]

/-- Concrete artifact bundle for witnesses: constant transform and scores. -/
def bundleW : ArtifactBundle :=
  { transform := fun rows => rows.map (fun _ => [0])
    select := fun m => m
    predictProba := fun m => m.map (fun _ => 1 / 2) }

/-- Request wrapping the vegan budget profile. -/
def uiW : UserInput :=
  { userProfile := profileWitness
    query := some "healthy breakfast"
    topK := some 5 }

/-- Environment whose artifact files are missing while a request is piped. -/
def envFail : Env :=
  { isatty := false
    stdinParse := some defaultUserInput
    parseErrDetail := ""
    artifactsOk := false
    catalogOk := true
    catalog := dfNonVegan
    bundle := bundleW }

/-- Healthy environment with the three-item witness catalog piped a request. -/
def envOk : Env :=
  { isatty := false
    stdinParse := some uiW
    parseErrDetail := ""
    artifactsOk := true
    catalogOk := true
    catalog := dfWitness
    bundle := bundleW }

/-- Environment whose request filters away every item: the only catalog item
is non-vegan and the request demands vegan food. -/
def envEmpty : Env :=
  { isatty := false
    stdinParse := some { userProfile := { dietaryRestrictions := ["Vegan"] } }
    parseErrDetail := ""
    artifactsOk := true
    catalogOk := true
    catalog := dfNonVegan
    bundle := bundleW }

/-- Environment whose standard input is not valid JSON. -/
def envBad : Env :=
  { isatty := false
    stdinParse := none
    parseErrDetail := "Expecting value: line 1 column 1 (char 0)"
    artifactsOk := true
    catalogOk := true
    catalog := dfWitness
    bundle := bundleW }

/-- Environment attached to an interactive terminal. -/
def envTty : Env :=
  { isatty := true
    stdinParse := none
    parseErrDetail := ""
    artifactsOk := true
    catalogOk := true
    catalog := dfWitness
    bundle := bundleW }

/-- The C6 claim exactly as stated: the index list is sorted by adjusted
probability descending, and among equal probabilities the item earlier in the
filtered catalog comes first. -/
def claimC6Statement : Prop :=
  ∀ probs : List ℚ,
    (argsortDesc probs).Pairwise (fun i j =>
      probs.getD j 0 < probs.getD i 0 ∨
        (probs.getD i 0 = probs.getD j 0 ∧ i ≤ j))

/-- The C5 claim's load-before-read ordering, as stated: whenever loading
fails the process must have exited before reading standard input, so the
trace of a failing run never contains the stdin read. -/
def claimC5Statement : Prop :=
  ∀ env : Env, env.isatty = false → env.artifactsOk = false →
    Event.readStdin ∉ (mainRun env).1

lemma restrictStage_cols (df : DataFrame) (cond : Prop) [Decidable cond] (c : String) :
    (restrictStage df cond c).cols = df.cols := by
  unfold restrictStage
  split <;> rfl

lemma budgetStage_cols (df : DataFrame) (m : ℚ) :
    (budgetStage df m).cols = df.cols := by
  unfold budgetStage
  split <;> rfl

lemma mem_restrictStage {df : DataFrame} {cond : Prop} [Decidable cond] {c : String}
    {r : Row} (hr : r ∈ (restrictStage df cond c).rows) :
    r ∈ df.rows ∧ (cond → c ∈ df.cols → r c = CellValue.num 1) := by
  unfold restrictStage at hr
  split at hr
  · rcases List.mem_filter.mp hr with ⟨hmem, hflag⟩
    exact ⟨hmem, fun _ _ => of_decide_eq_true hflag⟩
  · next h =>
    exact ⟨hr, fun hc hcc => absurd ⟨hc, hcc⟩ h⟩

lemma mem_budgetStage {df : DataFrame} {m : ℚ} {r : Row}
    (hr : r ∈ (budgetStage df m).rows) :
    r ∈ df.rows ∧ ("cost_per_serving" ∈ df.cols → numAt r "cost_per_serving" ≤ m) := by
  unfold budgetStage at hr
  split at hr
  · rcases List.mem_filter.mp hr with ⟨hmem, hcost⟩
    refine ⟨hmem, fun _ => ?_⟩
    unfold costAtMost at hcost
    unfold numAt
    cases hv : r "cost_per_serving" with
    | num q => rw [hv] at hcost; exact of_decide_eq_true hcost
    | str s => rw [hv] at hcost; exact absurd hcost (by simp)
  · next h =>
    exact ⟨hr, fun hc => absurd hc h⟩

/-- Soundness of the filter for the spellings the code actually recognizes:
every returned row passes every triggered flag filter and the budget cap. -/
theorem filter_sound (df : DataFrame) (p : UserProfile) (r : Row)
    (hr : r ∈ (filter_by_user_constraints df p).rows) :
    r ∈ df.rows ∧
    (("Vegan" ∈ p.dietaryRestrictions ∨ "vegan" ∈ p.dietaryRestrictions) →
      "is_vegan" ∈ df.cols → r "is_vegan" = CellValue.num 1) ∧
    (("Gluten Free" ∈ p.dietaryRestrictions ∨ "gluten-free" ∈ p.dietaryRestrictions) →
      "is_glutenfree" ∈ df.cols → r "is_glutenfree" = CellValue.num 1) ∧
    (("Nut Allergy" ∈ p.dietaryRestrictions ∨ "nut-free" ∈ p.dietaryRestrictions) →
      "is_nutfree" ∈ df.cols → r "is_nutfree" = CellValue.num 1) ∧
    ("cost_per_serving" ∈ df.cols →
      numAt r "cost_per_serving" ≤ p.weeklyBudget.getD 100 / 21) := by
  unfold filter_by_user_constraints at hr
  have hb := mem_budgetStage hr
  rw [restrictStage_cols, restrictStage_cols, restrictStage_cols] at hb
  have h3 := mem_restrictStage hb.1
  rw [restrictStage_cols, restrictStage_cols] at h3
  have h2 := mem_restrictStage h3.1
  rw [restrictStage_cols] at h2
  have h1 := mem_restrictStage h2.1
  exact ⟨h1.1, h1.2, h2.2, h3.2, hb.2⟩

/-- C1, counterexample: the claim as stated is false. With the restriction
spelled "VEGAN" (which matches "vegan" case-insensitively) and a catalog whose
only item has `is_vegan = 0`, the Constraint Filter still returns that item,
because the code only recognizes the exact spellings "Vegan" and "vegan". -/
theorem c1_filter_case_insensitive_counterexample : ¬ claimC1Statement := by
  intro h
  have hr : (fun _ => CellValue.num 0) ∈
      (filter_by_user_constraints dfNonVegan profileUpperVegan).rows := by
    simp [filter_by_user_constraints, restrictStage, budgetStage,
      dfNonVegan, profileUpperVegan]
  have h2 := (h dfNonVegan profileUpperVegan _ hr).1 "VEGAN" (by
    simp [profileUpperVegan])
  have h3 := h2.1 (by unfold matchesVeganCI lowerStr; decide) (by simp [dfNonVegan])
  exact absurd h3 (by decide)

/-- C1, amended: every item returned by the Constraint Filter satisfies, for
each recognized restriction whose exact spelling (human label "Vegan",
"Gluten Free", "Nut Allergy" or slug "vegan", "gluten-free", "nut-free" —
not arbitrary case variants) occurs in the profile's restriction set, that the
item's dietary flag equals 1 whenever the flag column exists on the catalog
(the filter is skipped when the column is absent); and whenever a cost column
exists, the item's cost per serving is at most weeklyBudget / 21, with
weeklyBudget defaulting to 100 when absent. -/
theorem c1_filter_soundness (df : DataFrame) (p : UserProfile) (r : Row)
    (hr : r ∈ (filter_by_user_constraints df p).rows) :
    (("Vegan" ∈ p.dietaryRestrictions ∨ "vegan" ∈ p.dietaryRestrictions) →
      "is_vegan" ∈ df.cols → r "is_vegan" = CellValue.num 1) ∧
    (("Gluten Free" ∈ p.dietaryRestrictions ∨ "gluten-free" ∈ p.dietaryRestrictions) →
      "is_glutenfree" ∈ df.cols → r "is_glutenfree" = CellValue.num 1) ∧
    (("Nut Allergy" ∈ p.dietaryRestrictions ∨ "nut-free" ∈ p.dietaryRestrictions) →
      "is_nutfree" ∈ df.cols → r "is_nutfree" = CellValue.num 1) ∧
    ("cost_per_serving" ∈ df.cols →
      numAt r "cost_per_serving" ≤ p.weeklyBudget.getD 100 / 21) :=
  (filter_sound df p r hr).2

/-- Witness for the amended C1 theorem at a concrete catalog and profile. -/
theorem c1_filter_soundness_witness :
    (dfWitness.rows.get ⟨0, by simp [dfWitness]⟩ ∈
      (filter_by_user_constraints dfWitness profileWitness).rows) ∧
    ((dfWitness.rows.get ⟨0, by simp [dfWitness]⟩) "is_vegan" = CellValue.num 1 ∧
      numAt (dfWitness.rows.get ⟨0, by simp [dfWitness]⟩) "cost_per_serving" ≤
        profileWitness.weeklyBudget.getD 100 / 21) := by
  have hr : (dfWitness.rows.get ⟨0, by simp [dfWitness]⟩ ∈
      (filter_by_user_constraints dfWitness profileWitness).rows) := by
    simp [filter_by_user_constraints, restrictStage, budgetStage,
      dfWitness, profileWitness, flagIsOne, costAtMost]
    norm_num
  have h := c1_filter_soundness dfWitness profileWitness _ hr
  exact ⟨hr, h.1 (Or.inl (by simp [profileWitness])) (by simp [dfWitness]),
    h.2.2.2 (by simp [dfWitness])⟩

lemma zipWith_eq_zip_map {α β γ : Type} (f : α → β → γ) :
    ∀ (l₁ : List α) (l₂ : List β),
      List.zipWith f l₁ l₂ = (l₁.zip l₂).map (fun ab => f ab.1 ab.2)
  | [], _ => by simp
  | _ :: _, [] => by simp
  | a :: l₁, b :: l₂ => by
      simp [zipWith_eq_zip_map f l₁ l₂]

lemma clip01_nonneg (x : ℚ) : 0 ≤ clip01 x := by
  unfold clip01
  exact le_min (le_max_right x 0) (by norm_num)

lemma clip01_le_one (x : ℚ) : clip01 x ≤ 1 :=
  min_le_right _ _

lemma adjust_for_goals_eq (probs : List ℚ) (rows : List Row) (p : UserProfile)
    (hlen : probs.length = rows.length) :
    adjust_for_goals probs rows p =
      (probs.zip rows).map (fun pr => clip01 (pr.1 * goalMultiplier p pr.2)) := by
  unfold adjust_for_goals
  by_cases h1 : p.primaryGoal.getD "" = "Weight Loss"
  · rw [if_pos h1, zipWith_eq_zip_map, List.map_map]
    refine List.map_congr_left fun ab _ => ?_
    by_cases hc : numAt ab.2 "calories" < 300 ∧ numAt ab.2 "protein_g" > 15
    · simp [goalMultiplier, h1, hc]
    · simp [goalMultiplier, h1, hc, mul_one]
  · rw [if_neg h1]
    by_cases h2 : p.primaryGoal.getD "" = "Muscle Gain"
    · rw [if_pos h2, zipWith_eq_zip_map, List.map_map]
      refine List.map_congr_left fun ab _ => ?_
      by_cases hc : numAt ab.2 "protein_g" > 20
      · simp [goalMultiplier, h2, hc]
      · simp [goalMultiplier, h2, hc, mul_one]
    · rw [if_neg h2]
      by_cases h3 : p.primaryGoal.getD "" = "Heart Health"
      · rw [if_pos h3, zipWith_eq_zip_map, List.map_map]
        refine List.map_congr_left fun ab _ => ?_
        by_cases hc : numAt ab.2 "sodium_mg" < 500 ∧ numAt ab.2 "fiber_g" > 5
        · simp [goalMultiplier, h3, hc]
        · simp [goalMultiplier, h3, hc, mul_one]
      · rw [if_neg h3]
        have hfst : (probs.zip rows).map Prod.fst = probs :=
          List.map_fst_zip probs rows (le_of_eq hlen)
        conv_lhs => rw [← hfst]
        rw [List.map_map]
        refine List.map_congr_left fun ab _ => ?_
        simp [goalMultiplier, h1, h2, h3, mul_one]

/-- C2: each adjusted probability equals clip(p × m, 0, 1) with the
multiplier m given by the goal rule table; every output lies in [0, 1]
whatever the input range; the output has the input's length; and for a
Muscle-Gain item with protein 22 and a non-negative raw score the adjusted
score is min(raw × 1.3, 1). -/
theorem c2_goal_adjuster (probs : List ℚ) (rows : List Row) (p : UserProfile)
    (hlen : probs.length = rows.length) :
    adjust_for_goals probs rows p =
      (probs.zip rows).map (fun pr => clip01 (pr.1 * goalMultiplier p pr.2)) ∧
    (∀ x ∈ adjust_for_goals probs rows p, 0 ≤ x ∧ x ≤ 1) ∧
    (adjust_for_goals probs rows p).length = probs.length ∧
    (∀ (pr : ℚ) (r : Row), 0 ≤ pr → p.primaryGoal.getD "" = "Muscle Gain" →
      numAt r "protein_g" = 22 →
      clip01 (pr * goalMultiplier p r) = min (pr * (13 / 10)) 1) := by
  refine ⟨adjust_for_goals_eq probs rows p hlen, ?_, ?_, ?_⟩
  · intro x hx
    unfold adjust_for_goals at hx
    rcases List.mem_map.mp hx with ⟨y, _, rfl⟩
    exact ⟨clip01_nonneg y, clip01_le_one y⟩
  · rw [adjust_for_goals_eq probs rows p hlen, List.length_map, List.length_zip, hlen,
      min_self]
  · intro pr r hpr hg hprot
    have hm : goalMultiplier p r = 13 / 10 := by
      unfold goalMultiplier
      rw [hg]
      rw [if_neg (by simp), if_pos ⟨rfl, by rw [hprot]; norm_num⟩]
    rw [hm]
    unfold clip01
    rw [max_eq_left (by positivity)]

/-- Witness for C2 at a concrete probability vector and catalog: a raw score
of 9/10 on the 22 g-protein item is boosted past 1 and clipped to exactly 1. -/
theorem c2_goal_adjuster_witness :
    adjust_for_goals [(9 : ℚ)/10] [rowMG] profileMG =
      ([((9 : ℚ)/10, rowMG)].map (fun pr => clip01 (pr.1 * goalMultiplier profileMG pr.2))) ∧
    (∀ x ∈ adjust_for_goals [(9 : ℚ)/10] [rowMG] profileMG, 0 ≤ x ∧ x ≤ 1) ∧
    adjust_for_goals [(9 : ℚ)/10] [rowMG] profileMG = [1] := by
  have h := c2_goal_adjuster [(9 : ℚ)/10] [rowMG] profileMG rfl
  refine ⟨h.1, h.2.1, ?_⟩
  rw [h.1]
  have hmg : goalMultiplier profileMG rowMG = 13 / 10 := by
    norm_num [goalMultiplier, profileMG, rowMG, numAt, cellNum]
    intro hcontra
    exact absurd hcontra (by decide)
  simp only [List.zip_cons_cons, List.zip_nil_right, List.map_cons, List.map_nil, hmg]
  unfold clip01
  norm_num

lemma getD_map_of_lt {α β : Type} (l : List α) (f : α → β) (i : ℕ)
    (hi : i < l.length) (d : β) (d' : α) :
    (l.map f).getD i d = f (l.getD i d') := by
  rw [List.getD_eq_getElem?_getD, List.getD_eq_getElem?_getD, List.getElem?_map,
    List.getElem?_eq_getElem hi]
  rfl

lemma cellAt_addColumn_ne (df : DataFrame) (c : String) (f : Row → CellValue)
    {c' : String} (hne : c' ≠ c) {i : ℕ} (hi : i < df.rows.length) :
    cellAt (addColumn df c f) i c' = cellAt df i c' := by
  unfold cellAt addColumn
  rw [getD_map_of_lt df.rows _ i hi _ junkRow]
  simp [updateRow, hne]

lemma cellAt_addColumn_self (df : DataFrame) (c : String) (f : Row → CellValue)
    {i : ℕ} (hi : i < df.rows.length) :
    cellAt (addColumn df c f) i c =
      f (df.rows.getD i junkRow) := by
  unfold cellAt addColumn
  rw [getD_map_of_lt df.rows _ i hi _ junkRow]
  simp [updateRow]

lemma ensureCol_cols_sub (df : DataFrame) (c : String) (f : DataFrame → Row → CellValue) :
    df.cols ⊆ (ensureCol df c f).cols := by
  unfold ensureCol
  split
  · exact fun _ h => h
  · intro x hx
    exact List.mem_append_left _ hx

lemma ensureCol_self_mem (df : DataFrame) (c : String) (f : DataFrame → Row → CellValue) :
    c ∈ (ensureCol df c f).cols := by
  unfold ensureCol
  split
  · assumption
  · exact List.mem_append_right _ (List.mem_singleton_self c)

lemma ensureCol_length (df : DataFrame) (c : String) (f : DataFrame → Row → CellValue) :
    (ensureCol df c f).rows.length = df.rows.length := by
  unfold ensureCol
  split
  · rfl
  · simp [addColumn]

lemma cellAt_ensureCol_ne (df : DataFrame) (c : String) (f : DataFrame → Row → CellValue)
    {c' : String} (hne : c' ≠ c) {i : ℕ} (hi : i < df.rows.length) :
    cellAt (ensureCol df c f) i c' = cellAt df i c' := by
  unfold ensureCol
  split
  · rfl
  · exact cellAt_addColumn_ne df c _ hne hi

lemma cellAt_ensureCol_mem (df : DataFrame) (c : String) (f : DataFrame → Row → CellValue)
    {c' : String} (hc' : c' ∈ df.cols) {i : ℕ} (hi : i < df.rows.length) :
    cellAt (ensureCol df c f) i c' = cellAt df i c' := by
  unfold ensureCol
  split
  · rfl
  · next h =>
    exact cellAt_addColumn_ne df c _ (fun he => h (he ▸ hc')) hi

lemma cellAt_ensureCol_new (df : DataFrame) (c : String) (f : DataFrame → Row → CellValue)
    (hc : c ∉ df.cols) {i : ℕ} (hi : i < df.rows.length) :
    cellAt (ensureCol df c f) i c =
      f df (df.rows.getD i junkRow) := by
  unfold ensureCol
  rw [if_neg hc]
  exact cellAt_addColumn_self df c _ hi

lemma ensureCol_not_mem (df : DataFrame) (c : String) (f : DataFrame → Row → CellValue)
    {c' : String} (h1 : c' ∉ df.cols) (h2 : c' ≠ c) :
    c' ∉ (ensureCol df c f).cols := by
  unfold ensureCol
  split
  · exact h1
  · intro hmem
    rcases List.mem_append.mp hmem with h | h
    · exact h1 h
    · exact h2 (List.mem_singleton.mp h)

section Folds

variable (st : DataFrame → String → DataFrame)

lemma foldl_cols_sub (hsub : ∀ df c, df.cols ⊆ (st df c).cols) :
    ∀ (fs : List String) (df : DataFrame), df.cols ⊆ (fs.foldl st df).cols
  | [], _ => fun _ h => h
  | f :: fs, df => fun _ hx =>
      foldl_cols_sub hsub fs (st df f) (hsub df f hx)

lemma foldl_mem_cols (hsub : ∀ df c, df.cols ⊆ (st df c).cols)
    (hself : ∀ df c, c ∈ (st df c).cols) :
    ∀ (fs : List String) (df : DataFrame) (c : String), c ∈ fs →
      c ∈ (fs.foldl st df).cols := by
  intro fs
  induction fs with
  | nil => intro df c h; exact absurd h (List.not_mem_nil c)
  | cons f fs ih =>
    intro df c hc
    rcases List.mem_cons.mp hc with rfl | hc
    · exact foldl_cols_sub st hsub fs (st df c) (hself df c)
    · exact ih (st df f) c hc

lemma foldl_length (hlen : ∀ df c, (st df c).rows.length = df.rows.length) :
    ∀ (fs : List String) (df : DataFrame),
      (fs.foldl st df).rows.length = df.rows.length
  | [], _ => rfl
  | f :: fs, df => by
      rw [List.foldl_cons, foldl_length hlen fs (st df f), hlen df f]

lemma foldl_cellAt_preserved
    (hlen : ∀ df c, (st df c).rows.length = df.rows.length)
    (hsub : ∀ df c, df.cols ⊆ (st df c).cols)
    (hpres : ∀ df c c' i, c' ∈ df.cols → i < df.rows.length →
      cellAt (st df c) i c' = cellAt df i c') :
    ∀ (fs : List String) (df : DataFrame) (c' : String) (i : ℕ),
      c' ∈ df.cols → i < df.rows.length →
      cellAt (fs.foldl st df) i c' = cellAt df i c' := by
  intro fs
  induction fs with
  | nil => intro df c' i _ _; rfl
  | cons f fs ih =>
    intro df c' i hc' hi
    rw [List.foldl_cons,
      ih (st df f) c' i (hsub df f hc') (by rw [hlen df f]; exact hi),
      hpres df f c' i hc' hi]

lemma foldl_not_mem_cols
    (hnm : ∀ df c c', c' ∉ df.cols → c' ≠ c → c' ∉ (st df c).cols) :
    ∀ (fs : List String) (df : DataFrame) (c' : String),
      c' ∉ df.cols → c' ∉ fs → c' ∉ (fs.foldl st df).cols := by
  intro fs
  induction fs with
  | nil => intro df c' h _; exact h
  | cons f fs ih =>
    intro df c' h hfs
    rw [List.foldl_cons]
    exact ih (st df f) c'
      (hnm df f c' h (fun he => hfs (he ▸ List.mem_cons_self f fs)))
      (fun hm => hfs (List.mem_cons_of_mem f hm))

lemma foldl_fill (V : String → CellValue) (P : String → Prop)
    (hlen : ∀ df c, (st df c).rows.length = df.rows.length)
    (hsub : ∀ df c, df.cols ⊆ (st df c).cols)
    (hself : ∀ df c, c ∈ (st df c).cols)
    (hpres : ∀ df c c' i, c' ∈ df.cols → i < df.rows.length →
      cellAt (st df c) i c' = cellAt df i c')
    (hnm : ∀ df c c', c' ∉ df.cols → c' ≠ c → c' ∉ (st df c).cols)
    (hset : ∀ df c, P c → c ∉ df.cols → ∀ i, i < df.rows.length →
      cellAt (st df c) i c = V c) :
    ∀ (fs : List String) (df : DataFrame) (c : String) (i : ℕ),
      P c → c ∈ fs → c ∉ df.cols → i < df.rows.length →
      cellAt (fs.foldl st df) i c = V c := by
  intro fs
  induction fs with
  | nil => intro df c i _ h _ _; exact absurd h (List.not_mem_nil c)
  | cons f fs ih =>
    intro df c i hP hc hnc hi
    rw [List.foldl_cons]
    by_cases hcf : c = f
    · subst hcf
      rw [foldl_cellAt_preserved st hlen hsub hpres fs (st df c) c i
        (hself df c) (by rw [hlen df c]; exact hi)]
      exact hset df c hP hnc i hi
    · exact ih (st df f) c i hP
        (Or.resolve_left (List.mem_cons.mp hc) hcf)
        (hnm df f c hnc hcf)
        (by rw [hlen df f]; exact hi)

end Folds

lemma numStep_length (df : DataFrame) (c : String) :
    (numStep df c).rows.length = df.rows.length :=
  ensureCol_length df c _

lemma numStep_cols_sub (df : DataFrame) (c : String) :
    df.cols ⊆ (numStep df c).cols :=
  ensureCol_cols_sub df c _

lemma numStep_self_mem (df : DataFrame) (c : String) :
    c ∈ (numStep df c).cols :=
  ensureCol_self_mem df c _

lemma numStep_pres (df : DataFrame) (c c' : String) (i : ℕ)
    (hc' : c' ∈ df.cols) (hi : i < df.rows.length) :
    cellAt (numStep df c) i c' = cellAt df i c' :=
  cellAt_ensureCol_mem df c _ hc' hi

lemma numStep_not_mem (df : DataFrame) (c c' : String)
    (h1 : c' ∉ df.cols) (h2 : c' ≠ c) :
    c' ∉ (numStep df c).cols :=
  ensureCol_not_mem df c _ h1 h2

lemma catStep_length (df : DataFrame) (c : String) :
    (catStep df c).rows.length = df.rows.length :=
  ensureCol_length df c _

lemma catStep_cols_sub (df : DataFrame) (c : String) :
    df.cols ⊆ (catStep df c).cols :=
  ensureCol_cols_sub df c _

lemma catStep_pres (df : DataFrame) (c c' : String) (i : ℕ)
    (hc' : c' ∈ df.cols) (hi : i < df.rows.length) :
    cellAt (catStep df c) i c' = cellAt df i c' :=
  cellAt_ensureCol_mem df c _ hc' hi

lemma binStep_length (df : DataFrame) (c : String) :
    (binStep df c).rows.length = df.rows.length :=
  ensureCol_length df c _

lemma binStep_cols_sub (df : DataFrame) (c : String) :
    df.cols ⊆ (binStep df c).cols :=
  ensureCol_cols_sub df c _

lemma binStep_self_mem (df : DataFrame) (c : String) :
    c ∈ (binStep df c).cols :=
  ensureCol_self_mem df c _

lemma binStep_pres (df : DataFrame) (c c' : String) (i : ℕ)
    (hc' : c' ∈ df.cols) (hi : i < df.rows.length) :
    cellAt (binStep df c) i c' = cellAt df i c' :=
  cellAt_ensureCol_mem df c _ hc' hi

lemma binStep_not_mem (df : DataFrame) (c c' : String)
    (h1 : c' ∉ df.cols) (h2 : c' ≠ c) :
    c' ∉ (binStep df c).cols :=
  ensureCol_not_mem df c _ h1 h2

lemma numStep_zero (df : DataFrame) (c : String)
    (h1 : c ≠ "nutrient_density") (h2 : c ≠ "sugar_to_carb_ratio")
    (hc : c ∉ df.cols) {i : ℕ} (hi : i < df.rows.length) :
    cellAt (numStep df c) i c = CellValue.num 0 := by
  rw [numStep, cellAt_ensureCol_new df c _ hc hi]
  simp [numDefault, h1, h2]

lemma colGetNum_mem (df : DataFrame) (i : ℕ) (c : String) (d : ℚ)
    (hc : c ∈ df.cols) :
    colGetNum df (df.rows.getD i junkRow) c d = cellNum (cellAt df i c) := by
  simp [colGetNum, numAt, cellAt, hc]

lemma numStep_nd (df : DataFrame) (hc : "nutrient_density" ∉ df.cols)
    {i : ℕ} (hi : i < df.rows.length) :
    cellAt (numStep df "nutrient_density") i "nutrient_density" =
      CellValue.num
        ((colGetNum df (df.rows.getD i junkRow) "protein_g" 0 +
            colGetNum df (df.rows.getD i junkRow) "fiber_g" 0) /
          (colGetNum df (df.rows.getD i junkRow) "calories" 1 + 1)) := by
  rw [numStep, cellAt_ensureCol_new df _ _ hc hi]
  simp [numDefault]

lemma numStep_scr (df : DataFrame) (hc : "sugar_to_carb_ratio" ∉ df.cols)
    {i : ℕ} (hi : i < df.rows.length) :
    cellAt (numStep df "sugar_to_carb_ratio") i "sugar_to_carb_ratio" =
      CellValue.num
        (colGetNum df (df.rows.getD i junkRow) "sugars_g" 0 /
          (colGetNum df (df.rows.getD i junkRow) "carbs_g" 1 + 1)) := by
  rw [numStep, cellAt_ensureCol_new df _ _ hc hi]
  simp [numDefault]

lemma catStep_new (df : DataFrame) (c : String) (hc : c ∉ df.cols)
    {i : ℕ} (hi : i < df.rows.length) :
    cellAt (catStep df c) i c = CellValue.str "unknown" := by
  rw [catStep, cellAt_ensureCol_new df c _ hc hi]

lemma binStep_new (df : DataFrame) (c : String) (hc : c ∉ df.cols)
    {i : ℕ} (hi : i < df.rows.length) :
    cellAt (binStep df c) i c = CellValue.num 0 := by
  rw [binStep, cellAt_ensureCol_new df c _ hc hi]

lemma materialize_decomp (df : DataFrame) :
    materializeFeatures df =
      binary_features.foldl binStep
        (catStep
          (numStep (numStep (numPre.foldl numStep df) "nutrient_density")
            "sugar_to_carb_ratio")
          "food_category") := by
  simp only [materializeFeatures, numerical_features, categorical_features, numPre,
    List.foldl_cons, List.foldl_nil]

/-- C7: after feature materialization every required numeric, categorical and
binary column exists; a missing plain numeric column is zero-filled; a missing
nutrient-density column holds (protein + fiber) / (calories + 1); a missing
sugar-to-carbohydrate-ratio column holds sugars / (carbohydrates + 1); a
missing categorical column holds "unknown"; a missing binary column holds 0;
cells of columns already present are unchanged; and the step is total, mapping
an empty catalog to an empty catalog (no exception possible). -/
theorem c7_feature_materializer (df : DataFrame) :
    (∀ c, (c ∈ numerical_features ∨ c ∈ categorical_features ∨ c ∈ binary_features) →
      c ∈ (materializeFeatures df).cols) ∧
    (materializeFeatures df).rows.length = df.rows.length ∧
    (df.rows = [] → (materializeFeatures df).rows = []) ∧
    (∀ i, i < df.rows.length →
      (∀ c ∈ df.cols, cellAt (materializeFeatures df) i c = cellAt df i c) ∧
      ("nutrient_density" ∉ df.cols →
        cellAt (materializeFeatures df) i "nutrient_density" =
          CellValue.num
            ((cellNum (cellAt (materializeFeatures df) i "protein_g") +
                cellNum (cellAt (materializeFeatures df) i "fiber_g")) /
              (cellNum (cellAt (materializeFeatures df) i "calories") + 1))) ∧
      ("sugar_to_carb_ratio" ∉ df.cols →
        cellAt (materializeFeatures df) i "sugar_to_carb_ratio" =
          CellValue.num
            (cellNum (cellAt (materializeFeatures df) i "sugars_g") /
              (cellNum (cellAt (materializeFeatures df) i "carbs_g") + 1))) ∧
      (∀ c ∈ numerical_features, c ∉ df.cols → c ≠ "nutrient_density" →
        c ≠ "sugar_to_carb_ratio" →
        cellAt (materializeFeatures df) i c = CellValue.num 0) ∧
      ("food_category" ∉ df.cols →
        cellAt (materializeFeatures df) i "food_category" = CellValue.str "unknown") ∧
      (∀ c ∈ binary_features, c ∉ df.cols →
        cellAt (materializeFeatures df) i c = CellValue.num 0)) := by
  rw [materialize_decomp df]
  set d1a := numPre.foldl numStep df with hd1a
  set d1b := numStep d1a "nutrient_density" with hd1b
  set d1 := numStep d1b "sugar_to_carb_ratio" with hd1
  set d2 := catStep d1 "food_category" with hd2
  set m := binary_features.foldl binStep d2 with hmm
  have hlen1a : d1a.rows.length = df.rows.length :=
    foldl_length numStep numStep_length numPre df
  have hlen1b : d1b.rows.length = df.rows.length := by
    rw [hd1b, numStep_length, hlen1a]
  have hlen1 : d1.rows.length = df.rows.length := by
    rw [hd1, numStep_length, hlen1b]
  have hlen2 : d2.rows.length = df.rows.length := by
    rw [hd2, catStep_length, hlen1]
  have hlenm : m.rows.length = df.rows.length := by
    rw [hmm, foldl_length binStep binStep_length, hlen2]
  have hsub_da : df.cols ⊆ d1a.cols := foldl_cols_sub numStep numStep_cols_sub numPre df
  have hsub_ab : d1a.cols ⊆ d1b.cols := by
    rw [hd1b]; exact numStep_cols_sub d1a _
  have hsub_b1 : d1b.cols ⊆ d1.cols := by
    rw [hd1]; exact numStep_cols_sub d1b _
  have hsub_12 : d1.cols ⊆ d2.cols := by
    rw [hd2]; exact catStep_cols_sub d1 _
  have hsub_2m : d2.cols ⊆ m.cols := by
    rw [hmm]; exact foldl_cols_sub binStep binStep_cols_sub binary_features d2
  -- value preservation towards the final frame, from each stage
  have hp_2m : ∀ c i, c ∈ d2.cols → i < df.rows.length →
      cellAt m i c = cellAt d2 i c := by
    intro c i hc hi
    rw [hmm]
    exact foldl_cellAt_preserved binStep binStep_length binStep_cols_sub
      binStep_pres binary_features d2 c i hc (by rw [hlen2]; exact hi)
  have hp_1m : ∀ c i, c ∈ d1.cols → i < df.rows.length →
      cellAt m i c = cellAt d1 i c := by
    intro c i hc hi
    rw [hp_2m c i (hsub_12 hc) hi, hd2,
      catStep_pres d1 _ c i hc (by rw [hlen1]; exact hi)]
  have hp_bm : ∀ c i, c ∈ d1b.cols → i < df.rows.length →
      cellAt m i c = cellAt d1b i c := by
    intro c i hc hi
    rw [hp_1m c i (hsub_b1 hc) hi, hd1,
      numStep_pres d1b _ c i hc (by rw [hlen1b]; exact hi)]
  have hp_am : ∀ c i, c ∈ d1a.cols → i < df.rows.length →
      cellAt m i c = cellAt d1a i c := by
    intro c i hc hi
    rw [hp_bm c i (hsub_ab hc) hi, hd1b,
      numStep_pres d1a _ c i hc (by rw [hlen1a]; exact hi)]
  have hp_dfm : ∀ c i, c ∈ df.cols → i < df.rows.length →
      cellAt m i c = cellAt df i c := by
    intro c i hc hi
    rw [hp_am c i (hsub_da hc) hi]
    exact foldl_cellAt_preserved numStep numStep_length numStep_cols_sub
      numStep_pres numPre df c i hc hi
  refine ⟨?_, hlenm, ?_, ?_⟩
  · -- all feature columns exist on the final frame
    intro c hc
    rcases hc with hc | hc | hc
    · have hc1 : c ∈ d1.cols := by
        rw [show numerical_features =
          numPre ++ ["nutrient_density", "sugar_to_carb_ratio"] from rfl] at hc
        rcases List.mem_append.mp hc with hpre | hder
        · exact hsub_b1 (hsub_ab
            (foldl_mem_cols numStep numStep_cols_sub numStep_self_mem numPre df c hpre))
        · rcases List.mem_cons.mp hder with rfl | hder
          · exact hsub_b1 (by rw [hd1b]; exact numStep_self_mem d1a _)
          · rcases List.mem_cons.mp hder with rfl | hder
            · rw [hd1]; exact numStep_self_mem d1b _
            · exact absurd hder (List.not_mem_nil c)
      exact hsub_2m (hsub_12 hc1)
    · rcases List.mem_cons.mp hc with rfl | hder
      · exact hsub_2m (by rw [hd2]; exact ensureCol_self_mem d1 _ _)
      · exact absurd hder (List.not_mem_nil c)
    · rw [hmm]
      exact foldl_mem_cols binStep binStep_cols_sub binStep_self_mem
        binary_features d2 c hc
  · -- empty catalog stays empty
    intro hnil
    have := hlenm
    rw [hnil] at this
    exact List.length_eq_zero.mp (by simpa using this)
  · intro i hi
    have hia : i < d1a.rows.length := by rw [hlen1a]; exact hi
    have hib : i < d1b.rows.length := by rw [hlen1b]; exact hi
    have hi1 : i < d1.rows.length := by rw [hlen1]; exact hi
    refine ⟨fun c hc => hp_dfm c i hc hi, ?_, ?_, ?_, ?_, ?_⟩
    · -- derived nutrient-density column
      intro hnd
      have hnda : "nutrient_density" ∉ d1a.cols :=
        foldl_not_mem_cols numStep numStep_not_mem numPre df _ hnd (by decide)
      have hprot : "protein_g" ∈ d1a.cols :=
        foldl_mem_cols numStep numStep_cols_sub numStep_self_mem numPre df _ (by decide)
      have hfib : "fiber_g" ∈ d1a.cols :=
        foldl_mem_cols numStep numStep_cols_sub numStep_self_mem numPre df _ (by decide)
      have hcal : "calories" ∈ d1a.cols :=
        foldl_mem_cols numStep numStep_cols_sub numStep_self_mem numPre df _ (by decide)
      have hval : cellAt d1b i "nutrient_density" =
          CellValue.num
            ((cellNum (cellAt d1a i "protein_g") + cellNum (cellAt d1a i "fiber_g")) /
              (cellNum (cellAt d1a i "calories") + 1)) := by
        rw [hd1b, numStep_nd d1a hnda hia,
          colGetNum_mem d1a i _ _ hprot, colGetNum_mem d1a i _ _ hfib,
          colGetNum_mem d1a i _ _ hcal]
      rw [hp_bm _ i (by rw [hd1b]; exact numStep_self_mem d1a _) hi, hval,
        hp_am _ i hprot hi, hp_am _ i hfib hi, hp_am _ i hcal hi]
    · -- derived sugar-to-carbohydrate-ratio column
      intro hscr
      have hscra : "sugar_to_carb_ratio" ∉ d1a.cols :=
        foldl_not_mem_cols numStep numStep_not_mem numPre df _ hscr (by decide)
      have hscrb : "sugar_to_carb_ratio" ∉ d1b.cols := by
        rw [hd1b]; exact numStep_not_mem d1a _ _ hscra (by decide)
      have hsug : "sugars_g" ∈ d1a.cols :=
        foldl_mem_cols numStep numStep_cols_sub numStep_self_mem numPre df _ (by decide)
      have hcarb : "carbs_g" ∈ d1a.cols :=
        foldl_mem_cols numStep numStep_cols_sub numStep_self_mem numPre df _ (by decide)
      have hval : cellAt d1 i "sugar_to_carb_ratio" =
          CellValue.num
            (cellNum (cellAt d1b i "sugars_g") / (cellNum (cellAt d1b i "carbs_g") + 1)) := by
        rw [hd1, numStep_scr d1b hscrb hib,
          colGetNum_mem d1b i _ _ (hsub_ab hsug), colGetNum_mem d1b i _ _ (hsub_ab hcarb)]
      have hsb : cellAt d1b i "sugars_g" = cellAt d1a i "sugars_g" := by
        rw [hd1b]; exact numStep_pres d1a _ _ i hsug hia
      have hcb : cellAt d1b i "carbs_g" = cellAt d1a i "carbs_g" := by
        rw [hd1b]; exact numStep_pres d1a _ _ i hcarb hia
      rw [hp_1m _ i (by rw [hd1]; exact numStep_self_mem d1b _) hi, hval, hsb, hcb,
        hp_am _ i hsug hi, hp_am _ i hcarb hi]
    · -- plain numeric columns are zero-filled
      intro c hc hnc hnd hscr
      have hcpre : c ∈ numPre := by
        rw [show numerical_features =
          numPre ++ ["nutrient_density", "sugar_to_carb_ratio"] from rfl] at hc
        rcases List.mem_append.mp hc with hpre | hder
        · exact hpre
        · rcases List.mem_cons.mp hder with rfl | hder
          · exact absurd rfl hnd
          · rcases List.mem_cons.mp hder with rfl | hder
            · exact absurd rfl hscr
            · exact absurd hder (List.not_mem_nil c)
      have hzero : cellAt d1a i c = CellValue.num 0 :=
        foldl_fill numStep (fun _ => CellValue.num 0) (fun c => c ≠ "nutrient_density" ∧
            c ≠ "sugar_to_carb_ratio")
          numStep_length numStep_cols_sub numStep_self_mem numStep_pres numStep_not_mem
          (fun df c hP hnc i hi => numStep_zero df c hP.1 hP.2 hnc hi)
          numPre df c i ⟨hnd, hscr⟩ hcpre hnc hi
      rw [hp_am c i
        (foldl_mem_cols numStep numStep_cols_sub numStep_self_mem numPre df c hcpre) hi,
        hzero]
    · -- missing categorical column
      intro hfc
      have hfa : "food_category" ∉ d1a.cols :=
        foldl_not_mem_cols numStep numStep_not_mem numPre df _ hfc (by decide)
      have hfb : "food_category" ∉ d1b.cols := by
        rw [hd1b]; exact numStep_not_mem d1a _ _ hfa (by decide)
      have hf1 : "food_category" ∉ d1.cols := by
        rw [hd1]; exact numStep_not_mem d1b _ _ hfb (by decide)
      rw [hp_2m _ i (by rw [hd2]; exact ensureCol_self_mem d1 _ _) hi, hd2,
        catStep_new d1 _ hf1 hi1]
    · -- missing binary columns
      intro c hc hnc
      have hnotnum : c ∉ numPre ∧ c ≠ "nutrient_density" ∧ c ≠ "sugar_to_carb_ratio" ∧
          c ≠ "food_category" := by
        rw [show binary_features =
          ["is_glutenfree", "is_nutfree", "is_vegan"] from rfl] at hc
        rcases List.mem_cons.mp hc with rfl | hc
        · exact ⟨by decide, by decide, by decide, by decide⟩
        · rcases List.mem_cons.mp hc with rfl | hc
          · exact ⟨by decide, by decide, by decide, by decide⟩
          · rcases List.mem_cons.mp hc with rfl | hc
            · exact ⟨by decide, by decide, by decide, by decide⟩
            · exact absurd hc (List.not_mem_nil c)
      have hca : c ∉ d1a.cols :=
        foldl_not_mem_cols numStep numStep_not_mem numPre df _ hnc hnotnum.1
      have hcb : c ∉ d1b.cols := by
        rw [hd1b]; exact numStep_not_mem d1a _ _ hca hnotnum.2.1
      have hc1 : c ∉ d1.cols := by
        rw [hd1]; exact numStep_not_mem d1b _ _ hcb hnotnum.2.2.1
      have hc2 : c ∉ d2.cols := by
        rw [hd2]; exact ensureCol_not_mem d1 _ _ hc1 hnotnum.2.2.2
      rw [hmm]
      exact foldl_fill binStep (fun _ => CellValue.num 0) (fun _ => True)
        binStep_length binStep_cols_sub binStep_self_mem binStep_pres binStep_not_mem
        (fun df c _ hnc i hi => binStep_new df c hnc hi)
        binary_features d2 c i trivial hc hc2 (by rw [hlen2]; exact hi)

/-- Witness for C7 at a concrete two-column catalog: the missing plain numeric
column is zero-filled, the categorical column defaults to "unknown", and the
binary column defaults to 0. -/
theorem c7_feature_materializer_witness :
    (0 < dfC7.rows.length) ∧
    cellAt (materializeFeatures dfC7) 0 "fat_g" = CellValue.num 0 ∧
    cellAt (materializeFeatures dfC7) 0 "food_category" = CellValue.str "unknown" ∧
    cellAt (materializeFeatures dfC7) 0 "is_vegan" = CellValue.num 0 := by
  have hi : (0 : ℕ) < dfC7.rows.length := by decide
  have h4 := (c7_feature_materializer dfC7).2.2.2 0 hi
  refine ⟨hi, ?_, ?_, ?_⟩
  · exact h4.2.2.2.1 "fat_g" (by decide) (by decide) (by decide) (by decide)
  · exact h4.2.2.2.2.1 (by decide)
  · exact h4.2.2.2.2.2 "is_vegan" (by decide) (by decide)

lemma argsortDesc_perm (probs : List ℚ) :
    List.Perm (argsortDesc probs) (List.range probs.length) :=
  (List.reverse_perm _).trans (List.perm_insertionSort _ _)

lemma argsortDesc_length (probs : List ℚ) :
    (argsortDesc probs).length = probs.length := by
  rw [(argsortDesc_perm probs).length_eq, List.length_range]

lemma argsortDesc_pairwise (probs : List ℚ) :
    (argsortDesc probs).Pairwise (fun i j =>
      probs.getD j 0 < probs.getD i 0 ∨
        (probs.getD j 0 = probs.getD i 0 ∧ j ≤ i)) := by
  have h := List.sorted_insertionSort (argsortRel probs) (List.range probs.length)
  rw [List.Sorted] at h
  unfold argsortDesc
  rw [List.pairwise_reverse]
  exact h.imp (fun hr => hr)

lemma argsortDesc_scores_desc (probs : List ℚ) :
    (argsortDesc probs).Pairwise (fun i j => probs.getD j 0 ≤ probs.getD i 0) :=
  (argsortDesc_pairwise probs).imp (fun h => by
    rcases h with h | ⟨h, _⟩
    · exact le_of_lt h
    · exact le_of_eq h)

/-- C6, counterexample: on two items with equal scores the code's
`np.argsort(probs)[::-1]` emits index 1 before index 0, so equal-score items
appear in reverse insertion order, not insertion order. -/
theorem c6_tie_order_counterexample :
    argsortDesc [(1 : ℚ)/2, 1/2] = [1, 0] ∧ ¬ claimC6Statement := by
  have heval : argsortDesc [(1 : ℚ)/2, 1/2] = [1, 0] := by
    simp [argsortDesc, argsortRel, List.range_succ]
  refine ⟨heval, fun h => ?_⟩
  have h2 := h [(1 : ℚ)/2, 1/2]
  rw [heval] at h2
  have h10 := (List.pairwise_cons.mp h2).1 0 (by simp)
  rcases h10 with h10 | ⟨_, h10⟩
  · exact absurd h10 (by norm_num)
  · exact absurd h10 (by norm_num)

/-- C6, amended: the Ranker's index list is sorted by adjusted probability
descending, and among items with equal adjusted probability the item later in
the filtered catalog appears first (reverse insertion order), because the code
reverses a stable ascending argsort; the list is a permutation of all row
indices. -/
theorem c6_ranker_order (probs : List ℚ) :
    (argsortDesc probs).Pairwise (fun i j =>
      probs.getD j 0 < probs.getD i 0 ∨
        (probs.getD j 0 = probs.getD i 0 ∧ j ≤ i)) ∧
    List.Perm (argsortDesc probs) (List.range probs.length) :=
  ⟨argsortDesc_pairwise probs, argsortDesc_perm probs⟩

lemma foldl_min_le : ∀ (xs : List ℚ) (x y : ℚ), (y = x ∨ y ∈ xs) →
    xs.foldl min x ≤ y
  | [], x, y, h => by
      rcases h with rfl | h
      · exact le_refl y
      · exact absurd h (List.not_mem_nil y)
  | a :: tl, x, y, h => by
      rcases h with rfl | h
      · exact (foldl_min_le tl (min y a) (min y a) (Or.inl rfl)).trans
          (min_le_left y a)
      · rcases List.mem_cons.mp h with rfl | h
        · exact (foldl_min_le tl (min x y) (min x y) (Or.inl rfl)).trans
            (min_le_right x y)
        · exact foldl_min_le tl (min x a) y (Or.inr h)

lemma matMin_le (m : List (List ℚ)) {row : List ℚ} (hrow : row ∈ m)
    {y : ℚ} (hy : y ∈ row) : matMin m ≤ y := by
  have hmem : y ∈ m.flatten := List.mem_flatten.mpr ⟨row, hrow, hy⟩
  unfold matMin
  cases hj : m.flatten with
  | nil => rw [hj] at hmem; exact absurd hmem (List.not_mem_nil y)
  | cons x xs =>
    rw [hj] at hmem
    exact foldl_min_le xs x y (by
      rcases List.mem_cons.mp hmem with rfl | h
      · exact Or.inl rfl
      · exact Or.inr h)

/-- C9: after the non-negative shift every entry is at least epsilon (hence
strictly positive); each shifted entry equals the original minus the current
batch's global minimum plus epsilon; and the subtracted amount is not a
constant fixed across batches: no single additive constant reproduces the
shift on every matrix. -/
theorem c9_nonneg_shift (m : List (List ℚ)) :
    (∀ row ∈ shiftNonneg m, ∀ x ∈ row, epsShift ≤ x) ∧
    shiftNonneg m = m.map (fun row => row.map (fun x => x - matMin m + epsShift)) ∧
    ¬ ∃ c : ℚ, ∀ m' : List (List ℚ),
        shiftNonneg m' = m'.map (fun row => row.map (fun x => x + c)) := by
  refine ⟨?_, rfl, ?_⟩
  · intro row hrow x hx
    rcases List.mem_map.mp hrow with ⟨row0, hrow0, rfl⟩
    rcases List.mem_map.mp hx with ⟨x0, hx0, rfl⟩
    have hmin : matMin m ≤ x0 := matMin_le m hrow0 hx0
    linarith
  · rintro ⟨c, hc⟩
    have h0 := hc [[0]]
    have h5 := hc [[(5 : ℚ)]]
    simp [shiftNonneg, matMin] at h0 h5
    have hc0 : c = epsShift := by linarith
    rw [hc0] at h5
    linarith [h5]

/-- Witness for C9 at the concrete batch [[3, 7]]: the entry obtained from 3
is at least epsilon. -/
theorem c9_nonneg_shift_witness :
    epsShift ≤ (3 : ℚ) - matMin [[(3 : ℚ), 7]] + epsShift :=
  (c9_nonneg_shift [[(3 : ℚ), 7]]).1
    [(3 : ℚ) - matMin [[(3 : ℚ), 7]] + epsShift,
      (7 : ℚ) - matMin [[(3 : ℚ), 7]] + epsShift]
    (by simp [shiftNonneg]) _ (by simp)

/-- C8: when standard input is not an interactive terminal and the document
is not valid JSON, the process exits 1, writes nothing to standard output,
and writes an error naming the invalid input to standard error. -/
theorem c8_malformed_input (env : Env)
    (htty : env.isatty = false) (hp : env.stdinParse = none) :
    (mainRun env).2 = 1 ∧
    (∀ r, Event.writeStdout r ∉ (mainRun env).1) ∧
    Event.writeStderr ("Invalid JSON input: " ++ env.parseErrDetail) ∈
      (mainRun env).1 := by
  simp [mainRun, htty, hp]

/-- Witness for C8 on the concrete bad-input environment. -/
theorem c8_malformed_input_witness :
    (mainRun envBad).2 = 1 ∧
    (∀ r, Event.writeStdout r ∉ (mainRun envBad).1) ∧
    Event.writeStderr ("Invalid JSON input: " ++ envBad.parseErrDetail) ∈
      (mainRun envBad).1 :=
  c8_malformed_input envBad rfl rfl

/-- C4: when filtering leaves zero eligible items the run writes a normal
response to standard output - empty recommendation list together with a
non-empty guidance message - exits 0, and writes nothing to standard error. -/
theorem c4_empty_filter (env : Env) (ui : UserInput)
    (htty : env.isatty = false) (hp : env.stdinParse = some ui)
    (ha : env.artifactsOk = true) (hc : env.catalogOk = true)
    (hempty : (filter_by_user_constraints env.catalog ui.userProfile).rows.length = 0) :
    mainRun env =
      ([Event.readStdin, Event.loadModels true, Event.loadCatalog true,
        Event.writeStdout (PredictResult.noMatch noMatchMsg)], 0) ∧
    (PredictResult.noMatch noMatchMsg).recommendationList = [] ∧
    noMatchMsg ≠ "" ∧
    (∀ msg, Event.writeStderr msg ∉ (mainRun env).1) := by
  have hrun : mainRun env =
      ([Event.readStdin, Event.loadModels true, Event.loadCatalog true,
        Event.writeStdout (PredictResult.noMatch noMatchMsg)], 0) := by
    simp [mainRun, htty, hp, runPipeline, ha, hc, hempty]
  refine ⟨hrun, rfl, by decide, ?_⟩
  intro msg
  rw [hrun]
  simp

/-- Witness for C4 on the concrete environment whose vegan request filters
out the single non-vegan catalog item. -/
theorem c4_empty_filter_witness :
    mainRun envEmpty =
      ([Event.readStdin, Event.loadModels true, Event.loadCatalog true,
        Event.writeStdout (PredictResult.noMatch noMatchMsg)], 0) ∧
    noMatchMsg ≠ "" := by
  have h := c4_empty_filter envEmpty { userProfile := { dietaryRestrictions := ["Vegan"] } }
    rfl rfl rfl rfl
    (by simp [filter_by_user_constraints, restrictStage, budgetStage, envEmpty,
      dfNonVegan, flagIsOne])
  exact ⟨h.1, h.2.2.1⟩

/-- C10: on an interactive terminal the run does not fail or block: it first
prints the notice to standard error, substitutes the fixed built-in request
(goal "Weight Loss", restrictions ["Vegan"], weekly budget 75, top_k 5), and
from there behaves exactly as if that request had been piped in (same
remaining events and same exit code). -/
theorem c10_interactive_default (env : Env) (htty : env.isatty = true) :
    (mainRun env).1.head? = some (Event.writeStderr noInputMsg) ∧
    defaultUserInput.userProfile.primaryGoal = some "Weight Loss" ∧
    defaultUserInput.userProfile.dietaryRestrictions = ["Vegan"] ∧
    defaultUserInput.userProfile.weeklyBudget = some 75 ∧
    defaultUserInput.topK = some 5 ∧
    (mainRun env).1.tail =
      (mainRun { env with
        isatty := false
        stdinParse := some defaultUserInput }).1.tail ∧
    (mainRun env).2 =
      (mainRun { env with
        isatty := false
        stdinParse := some defaultUserInput }).2 := by
  refine ⟨?_, rfl, rfl, rfl, rfl, ?_, ?_⟩ <;>
    simp [mainRun, htty, runPipeline] <;>
    split_ifs <;> simp

/-- Witness for C10 on the concrete interactive environment. -/
theorem c10_interactive_default_witness :
    (mainRun envTty).1.head? = some (Event.writeStderr noInputMsg) ∧
    (mainRun envTty).2 =
      (mainRun { envTty with
        isatty := false
        stdinParse := some defaultUserInput }).2 := by
  have h := c10_interactive_default envTty rfl
  exact ⟨h.1, h.2.2.2.2.2.2⟩

/-- C5, counterexample: with artifact files missing and a piped request the
run still reads standard input first and only then fails the artifact load,
so the claimed exit-before-read ordering is false. -/
theorem c5_load_order_counterexample :
    envFail.artifactsOk = false ∧
    (mainRun envFail).2 = 1 ∧
    Event.readStdin ∈ (mainRun envFail).1 ∧
    ¬ claimC5Statement := by
  have hmem : Event.readStdin ∈ (mainRun envFail).1 := by
    simp [mainRun, envFail, runPipeline]
  exact ⟨rfl, by simp [mainRun, envFail, runPipeline], hmem,
    fun h => h envFail rfl rfl hmem⟩

/-- C5, amended: the run reads the request first, then loads the artifacts
exactly once and the catalog exactly once (the latter only after the former
succeeds) before any scoring; if either load fails the process exits with a
non-zero status - after the stdin read, not before - and never reaches
scoring with partial artifacts. -/
theorem c5_load_once_before_scoring (env : Env) (ui : UserInput)
    (htty : env.isatty = false) (hp : env.stdinParse = some ui) :
    ∃ rest, (mainRun env).1 =
        Event.readStdin :: Event.loadModels env.artifactsOk :: rest ∧
      (∀ b, Event.loadModels b ∉ rest) ∧
      (env.artifactsOk = false →
        (mainRun env).2 = 1 ∧ Event.score ∉ (mainRun env).1) ∧
      (env.artifactsOk = true →
        ∃ rest2, rest = Event.loadCatalog env.catalogOk :: rest2 ∧
          (∀ b, Event.loadCatalog b ∉ rest2) ∧
          (env.catalogOk = false →
            (mainRun env).2 = 1 ∧ Event.score ∉ (mainRun env).1)) ∧
      (Event.score ∈ (mainRun env).1 →
        env.artifactsOk = true ∧ env.catalogOk = true) := by
  cases ha : env.artifactsOk with
  | false =>
    refine ⟨[Event.writeStderr modelsMissingMsg], ?_, ?_, ?_, ?_, ?_⟩ <;>
      simp [mainRun, htty, hp, runPipeline, ha]
  | true =>
    cases hc : env.catalogOk with
    | false =>
      refine ⟨[Event.loadCatalog false, Event.writeStderr catalogMissingMsg],
        ?_, ?_, ?_, ?_, ?_⟩ <;>
        simp [mainRun, htty, hp, runPipeline, ha, hc]
    | true =>
      by_cases hemp :
          (filter_by_user_constraints env.catalog ui.userProfile).rows.length = 0
      · refine ⟨[Event.loadCatalog true,
          Event.writeStdout (PredictResult.noMatch noMatchMsg)], ?_, ?_, ?_, ?_, ?_⟩ <;>
          simp [mainRun, htty, hp, runPipeline, ha, hc, hemp]
      · refine ⟨[Event.loadCatalog true, Event.score,
          Event.writeStdout
            (predict_top_meals env.bundle env.catalog ui (ui.topK.getD 5))],
          ?_, ?_, ?_, ?_, ?_⟩ <;>
          simp [mainRun, htty, hp, runPipeline, ha, hc, hemp]

/-- Witness for the amended C5 on the healthy concrete environment. -/
theorem c5_load_once_before_scoring_witness :
    ∃ rest, (mainRun envOk).1 =
      Event.readStdin :: Event.loadModels true :: rest := by
  obtain ⟨rest, h1, -⟩ := c5_load_once_before_scoring envOk uiW rfl rfl
  exact ⟨rest, h1⟩

lemma adjust_for_goals_length (probs : List ℚ) (rows : List Row) (p : UserProfile)
    (hlen : probs.length = rows.length) :
    (adjust_for_goals probs rows p).length = probs.length := by
  rw [adjust_for_goals_eq probs rows p hlen, List.length_map, List.length_zip, hlen,
    min_self]

lemma materializeFeatures_length (df : DataFrame) :
    (materializeFeatures df).rows.length = df.rows.length := by
  rw [materialize_decomp df, foldl_length binStep binStep_length, catStep_length,
    numStep_length, numStep_length, foldl_length numStep numStep_length]

lemma adjustedProbs_length (b : ArtifactBundle) (eligible : DataFrame) (p : UserProfile)
    (hart : (scoreProbs b (materializeFeatures eligible)).length =
      (materializeFeatures eligible).rows.length) :
    (adjustedProbs b eligible p).length = eligible.rows.length := by
  unfold adjustedProbs
  rw [adjust_for_goals_length _ _ _ hart, hart, materializeFeatures_length]

/-- C3: with a positive `top_k` and a non-empty filtered catalog, the response
is a success whose recommendation list is sorted by fit score descending and
has length exactly min(top_k, number of eligible items) - in particular all
eligible items, no more, when top_k exceeds their number - while
total_eligible reports the pre-truncation count of eligible items. -/
theorem c3_ranking (b : ArtifactBundle) (db : DataFrame) (ui : UserInput) (k : ℕ)
    (hk : 1 ≤ k)
    (hne : (filter_by_user_constraints db ui.userProfile).rows.length ≠ 0)
    (hart : (scoreProbs b (materializeFeatures
        (filter_by_user_constraints db ui.userProfile))).length =
      (materializeFeatures (filter_by_user_constraints db ui.userProfile)).rows.length) :
    ∃ s, predict_top_meals b db ui k = PredictResult.success s ∧
      s.recommendations.Pairwise (fun a c => c.fit_score ≤ a.fit_score) ∧
      s.recommendations.length =
        min k (filter_by_user_constraints db ui.userProfile).rows.length ∧
      ((filter_by_user_constraints db ui.userProfile).rows.length ≤ k →
        s.recommendations.length =
          (filter_by_user_constraints db ui.userProfile).rows.length) ∧
      s.total_eligible = (filter_by_user_constraints db ui.userProfile).rows.length := by
  refine ⟨buildSuccess b (filter_by_user_constraints db ui.userProfile) ui k,
    ?_, ?_, ?_, ?_, ?_⟩
  · unfold predict_top_meals
    rw [if_neg hne]
  · show (((argsortDesc (adjustedProbs b _ ui.userProfile)).take k).map _).Pairwise _
    refine List.Pairwise.map _ (fun i j h => h) ?_
    exact List.Pairwise.sublist (List.take_sublist k _)
      (argsortDesc_scores_desc (adjustedProbs b _ ui.userProfile))
  · show (((argsortDesc (adjustedProbs b _ ui.userProfile)).take k).map _).length = _
    rw [List.length_map, List.length_take, argsortDesc_length,
      adjustedProbs_length b _ ui.userProfile hart]
  · intro hle
    show (((argsortDesc (adjustedProbs b _ ui.userProfile)).take k).map _).length = _
    rw [List.length_map, List.length_take, argsortDesc_length,
      adjustedProbs_length b _ ui.userProfile hart, min_eq_right hle]
  · simp only [buildSuccess]
    exact materializeFeatures_length (filter_by_user_constraints db ui.userProfile)

/-- Witness for C3 on the concrete environment: `top_k = 5` against a catalog
with exactly one eligible item returns exactly that one item. -/
theorem c3_ranking_witness :
    (1 ≤ 5) ∧
    ∃ s, predict_top_meals bundleW dfWitness uiW 5 = PredictResult.success s ∧
      s.recommendations.length =
        min 5 (filter_by_user_constraints dfWitness uiW.userProfile).rows.length ∧
      s.total_eligible =
        (filter_by_user_constraints dfWitness uiW.userProfile).rows.length := by
  obtain ⟨s, h1, _, h3, _, h5⟩ := c3_ranking bundleW dfWitness uiW 5 (by norm_num)
    (by
      simp [filter_by_user_constraints, restrictStage, budgetStage, uiW,
        dfWitness, profileWitness, flagIsOne, costAtMost]
      norm_num)
    (by simp [scoreProbs, bundleW, shiftNonneg])
  exact ⟨by norm_num, s, h1, h3, h5⟩

end NutriSolve
